import Mathlib

/-!
Verification development for the `airq` air-quality monitor (source: `src/app.py`).

The repository ingests periodic readings from registered sensor devices,
stores them in a SQLite `measurements` table joined against a `devices`
table, and answers "latest" and "windowed history" queries.

Shallow embedding conventions:
* A database state is a pair of lists mirroring the two SQLite tables.
* Stored timestamps are modelled as `Int` seconds (the `DATETIME` column holds
  `"YYYY-MM-DD HH:MM:SS"` text whose lexicographic order coincides with
  chronological order, so an integer instant is an order-faithful model).
* `ORDER BY m.timestamp DESC LIMIT 1` is modelled as SQLite executes it: a
  reverse scan of the `idx_timestamp` index, whose keys are ordered by
  `(timestamp, rowid)`; hence equal timestamps come back highest-rowid first.
* Python dictionaries returned to the HTTP layer are modelled as association
  lists `List (String × Val)` in the literal key order of the source.
* The string-level timestamp normalization of `store_measurement`
  (`datetime.fromisoformat` / `strftime`) is modelled by an explicit
  ISO-8601 parser and formatter over `List Char`.
-/

namespace Airq

/-! ## Data model: the two SQLite tables (`init_database`, src/app.py) -/

/-- One row of the `devices` table (`id, name, provider, active`; the opaque
`config` JSON column is not needed by any property here). -/
structure Device where
  id : Nat
  name : String
  provider : String
  active : Bool
  deriving Repr, DecidableEq

/-- One row of the `measurements` table.  `id` is the AUTOINCREMENT rowid,
`timestamp` the stored UTC instant (seconds), and the eight reading columns
are nullable. -/
structure Measurement where
  id : Nat
  device_id : Nat
  timestamp : Int
  pm1 : Option Int
  pm2 : Option Int
  pm10 : Option Int
  co2 : Option Int
  temperature : Option Int
  humidity : Option Int
  nox : Option Int
  tvoc : Option Int
  deriving Repr, DecidableEq

/-- The database state: the two tables. -/
structure DB where
  devices : List Device
  measurements : List Measurement
  deriving Repr, DecidableEq

/-- The SQL `EXISTS (SELECT 1 FROM devices d WHERE d.id = did)` — the join condition
`JOIN devices d ON m.device_id = d.id` keeps exactly the measurements whose
device row exists (the `active` column plays no part). -/
def hasDevice (db : DB) (did : Nat) : Bool :=
  db.devices.any (fun d => d.id == did)

/-- The `d.name` column produced by the join (device ids are a primary key,
so the first match is the match). -/
def deviceNameOf (db : DB) (did : Nat) : String :=
  match db.devices.find? (fun d => d.id == did) with
  | some d => d.name
  | none => ""

/-- The check `SELECT 1 FROM devices WHERE id = ? AND active = 1` (the façade's
existence check in `api_current` / `api_history`). -/
def activeDeviceExists (db : DB) (did : Nat) : Bool :=
  db.devices.any (fun d => d.id == did && d.active)

/-- Referential integrity of the store: every measurement's `device_id`
references an existing device row (the application-level invariant of §3 of
the spec; `remove_device` can break it, which is what C9 is about). -/
def refIntegrity (db : DB) : Bool :=
  db.measurements.all (fun m => hasDevice db m.device_id)

/-! ## The `idx_timestamp` index order

Index keys are `(timestamp, rowid)`; a forward scan yields measurements in
nondecreasing `(timestamp, id)` order, a reverse scan the opposite. -/

/-- The `(timestamp, rowid)` key order of `idx_timestamp`. -/
def mLe (a b : Measurement) : Prop :=
  a.timestamp < b.timestamp ∨ (a.timestamp = b.timestamp ∧ a.id ≤ b.id)

instance : DecidableRel mLe := fun a b =>
  inferInstanceAs (Decidable (a.timestamp < b.timestamp ∨
    (a.timestamp = b.timestamp ∧ a.id ≤ b.id)))

theorem mLe_refl (a : Measurement) : mLe a a := Or.inr ⟨rfl, le_refl _⟩

instance : IsTotal Measurement mLe where
  total a b := by
    rcases lt_trichotomy a.timestamp b.timestamp with h | h | h
    · exact Or.inl (Or.inl h)
    · rcases Nat.le_total a.id b.id with h2 | h2
      · exact Or.inl (Or.inr ⟨h, h2⟩)
      · exact Or.inr (Or.inr ⟨h.symm, h2⟩)
    · exact Or.inr (Or.inl h)

instance : IsTrans Measurement mLe where
  trans a b c hab hbc := by
    rcases hab with h1 | ⟨e1, i1⟩
    · rcases hbc with h2 | ⟨e2, _⟩
      · exact Or.inl (lt_trans h1 h2)
      · exact Or.inl (e2 ▸ h1)
    · rcases hbc with h2 | ⟨e2, i2⟩
      · exact Or.inl (e1 ▸ h2)
      · exact Or.inr ⟨e1.trans e2, le_trans i1 i2⟩

/-- Forward scan of `idx_timestamp`: the measurements table in nondecreasing
`(timestamp, id)` order. -/
def measurementsByTsAsc (db : DB) : List Measurement :=
  List.insertionSort mLe db.measurements

/-- The join `JOIN devices d ON m.device_id = d.id`, producing the measurement row
together with the joined `d.name`. -/
def sqlJoin (db : DB) (ms : List Measurement) : List (Measurement × String) :=
  (ms.filter (fun m => hasDevice db m.device_id)).map
    (fun m => (m, deviceNameOf db m.device_id))

/-- The optional `WHERE m.device_id = ?` restriction. -/
def devMatch (did : Option Nat) (m : Measurement) : Bool :=
  match did with
  | some d => m.device_id == d
  | none => true

/-- The SQL of `get_latest_measurement`:
`SELECT m.*, d.name FROM measurements m JOIN devices d ON m.device_id = d.id
 [WHERE m.device_id = ?] ORDER BY m.timestamp DESC LIMIT 1`
as executed via a reverse scan of `idx_timestamp`. -/
def latestQuery (db : DB) (did : Option Nat) : Option (Measurement × String) :=
  (sqlJoin db (((measurementsByTsAsc db).reverse).filter (devMatch did))).head?

/-- The SQL of `get_historical_data`:
`SELECT m.timestamp, m.pm2, ... , d.name FROM measurements m JOIN devices d
 ON m.device_id = d.id WHERE m.timestamp > ? [AND m.device_id = ?]
 ORDER BY m.timestamp ASC`. -/
def historyQuery (db : DB) (since : Int) (did : Option Nat) :
    List (Measurement × String) :=
  sqlJoin db ((measurementsByTsAsc db).filter
    (fun m => decide (since < m.timestamp) && devMatch did m))

/-! ## Python dictionaries returned by the query layer -/

/-- A JSON-able Python value. -/
inductive Val where
  | int (i : Int)
  | str (s : String)
  | null
  deriving Repr, DecidableEq

/-- A Python dict, as an association list in literal key order. -/
abbrev Dict := List (String × Val)

/-- A nullable reading column as a dict value. -/
def optVal : Option Int → Val
  | some i => Val.int i
  | none => Val.null

/-- The dict literal built by `get_latest_measurement` from a fetched row
(`row[0]`..`row[11]`, keys in source order). -/
def latestDict (p : Measurement × String) : Dict :=
  [("id", Val.int p.1.id),
   ("device_id", Val.int p.1.device_id),
   ("timestamp", Val.int p.1.timestamp),
   ("pm1", optVal p.1.pm1),
   ("pm2", optVal p.1.pm2),
   ("pm10", optVal p.1.pm10),
   ("co2", optVal p.1.co2),
   ("temperature", optVal p.1.temperature),
   ("humidity", optVal p.1.humidity),
   ("nox", optVal p.1.nox),
   ("tvoc", optVal p.1.tvoc),
   ("device_name", Val.str p.2)]

/-- The dict literal built by `get_historical_data` for each row
(`row[0]`..`row[7]`, keys in source order). -/
def histDict (p : Measurement × String) : Dict :=
  [("timestamp", Val.int p.1.timestamp),
   ("pm2", optVal p.1.pm2),
   ("co2", optVal p.1.co2),
   ("temperature", optVal p.1.temperature),
   ("humidity", optVal p.1.humidity),
   ("tvoc", optVal p.1.tvoc),
   ("nox", optVal p.1.nox),
   ("device_name", Val.str p.2)]

/-- Python truthiness of the `device_id` argument: `if device_id:` treats
both `None` and `0` as false. -/
def pyTruthy : Option Nat → Bool
  | none => false
  | some n => n != 0

/-- Embeds `get_latest_measurement(device_id=None)` (src/app.py): branch on
`if device_id:`, run the SQL, build the dict. -/
def get_latest_measurement (db : DB) (device_id : Option Nat) : Option Dict :=
  if pyTruthy device_id then (latestQuery db device_id).map latestDict
  else (latestQuery db none).map latestDict

/-- Embeds `get_historical_data(hours=24, device_id=None)` (src/app.py):
`since = datetime.utcnow() - timedelta(hours=hours)`, branch on
`if device_id:`, run the SQL, build the dicts.  `now` is the current UTC
instant in seconds. -/
def get_historical_data (db : DB) (hours : Nat) (device_id : Option Nat)
    (now : Int) : List Dict :=
  if pyTruthy device_id then
    (historyQuery db (now - hours * 3600) device_id).map histDict
  else (historyQuery db (now - hours * 3600) none).map histDict

/-! ## Query Façade (`api_current`, `api_history`) -/

/-- Outcome of the history endpoint. -/
inductive ApiHistoryResp where
  | badRequest
  | notFound
  | ok (rows : List Dict)
  deriving Repr, DecidableEq

/-- Outcome of the current endpoint. -/
inductive ApiCurrentResp where
  | badRequest
  | notFound
  | ok (row : Dict)
  | noData
  deriving Repr, DecidableEq

/-- Embeds `api_history(hours, device_id=None)` (src/app.py).  The returned `Bool`
records whether the Store query (`get_historical_data`) was invoked. -/
def api_history (db : DB) (hours : Nat) (device_id : Option Nat) (now : Int) :
    ApiHistoryResp × Bool :=
  if hours < 1 || hours > 168 then (ApiHistoryResp.badRequest, false)
  else
    match device_id with
    | some did =>
        if did < 1 then (ApiHistoryResp.badRequest, false)
        else if !(activeDeviceExists db did) then (ApiHistoryResp.notFound, false)
        else (ApiHistoryResp.ok (get_historical_data db hours (some did) now), true)
    | none => (ApiHistoryResp.ok (get_historical_data db hours none now), true)

/-- Embeds `api_current(device_id=None)` (src/app.py).  The returned `Bool` records
whether the Store query (`get_latest_measurement`) was invoked. -/
def api_current (db : DB) (device_id : Option Nat) : ApiCurrentResp × Bool :=
  match device_id with
  | some did =>
      if did < 1 then (ApiCurrentResp.badRequest, false)
      else if !(activeDeviceExists db did) then (ApiCurrentResp.notFound, false)
      else
        match get_latest_measurement db (some did) with
        | some d => (ApiCurrentResp.ok d, true)
        | none => (ApiCurrentResp.noData, true)
  | none =>
      match get_latest_measurement db none with
      | some d => (ApiCurrentResp.ok d, true)
      | none => (ApiCurrentResp.noData, true)

/-! ## Device registry: `add_device` id assignment -/

/-- The aggregate `SELECT MAX(id) FROM devices`: `NULL` on an empty table, else the
maximum id, folded over the rows. -/
def sqlMaxId (devs : List Device) : Option Nat :=
  devs.foldl
    (fun acc d =>
      match acc with
      | none => some d.id
      | some v => some (max v d.id))
    none

/-- Python's `(max_id or 0)`: `None` and `0` are both falsy. -/
def pyOrZero : Option Nat → Nat
  | none => 0
  | some 0 => 0
  | some v => v

/-- The id-assignment and insertion performed by `add_device` (src/app.py):
`device_id = (max_id or 0) + 1`, then
`INSERT INTO devices (id, name, provider, config, active) VALUES (..., True)`.
Returns the new state and the assigned id. -/
def add_device (db : DB) (name provider : String) : DB × Nat :=
  let device_id := pyOrZero (sqlMaxId db.devices) + 1
  ({ db with devices := db.devices ++ [⟨device_id, name, provider, true⟩] },
   device_id)

/-! ## Device adapter (`AirGradientAdapter.fetch_data`) -/

/-- The standardized measurement dict an adapter returns (the literal dict
built in `AirGradientAdapter.fetch_data`). -/
structure MeasData where
  device_id : Nat
  timestamp : Option String
  pm1 : Option Int
  pm2 : Option Int
  pm10 : Option Int
  co2 : Option Int
  temperature : Option Int
  humidity : Option Int
  nox : Option Int
  tvoc : Option Int
  deriving Repr, DecidableEq

/-- The AirGradient `measures/current` JSON body; every field optional
(`data.get(...)`). -/
structure AGData where
  timestamp : Option String
  pm01 : Option Int
  pm02 : Option Int
  pm10 : Option Int
  rco2 : Option Int
  atmp : Option Int
  rhum : Option Int
  noxIndex : Option Int
  tvocIndex : Option Int
  deriving Repr, DecidableEq

/-- Outcome of `requests.get(url, timeout=10)` followed by
`raise_for_status()`: a successful JSON body, a transport-level error, a
timeout, or a non-success HTTP status (for which `raise_for_status` raises —
all three exceptional cases are `requests.exceptions.RequestException`s). -/
inductive HttpResult where
  | ok (body : AGData)
  | connectionError
  | timeout
  | httpError (status : Nat)
  deriving Repr, DecidableEq

/-- The failure outcomes of a fetch round-trip. -/
def isTransportFailure : HttpResult → Bool
  | HttpResult.ok _ => false
  | HttpResult.connectionError => true
  | HttpResult.timeout => true
  | HttpResult.httpError _ => true

/-- Embeds `AirGradientAdapter.fetch_data` (src/app.py): on a successful response
map the AirGradient field names onto the standardized schema; every
`requests.exceptions.RequestException` (transport error, timeout,
non-success status) is caught and turned into `None`.  The function is total
in the embedding: there is no uncaught path. -/
def fetch_data (device_id : Nat) (resp : HttpResult) : Option MeasData :=
  match resp with
  | HttpResult.ok data =>
      some
        { device_id := device_id
          timestamp := data.timestamp
          pm1 := data.pm01
          pm2 := data.pm02
          pm10 := data.pm10
          co2 := data.rco2
          temperature := data.atmp
          humidity := data.rhum
          nox := data.noxIndex
          tvoc := data.tvocIndex }
  | HttpResult.connectionError => none
  | HttpResult.timeout => none
  | HttpResult.httpError _ => none

/-! ## Poller/Scheduler (`data_fetcher`, one tick of the device loop) -/

/-- What one device's processing attempt can observe:
`create_device_adapter` either succeeds or raises. -/
inductive ConstructOutcome where
  | ok
  | err
  deriving Repr, DecidableEq

/-- What `adapter.fetch_data()` can do for a device in a tick: return a
measurement dict, return `None` (Absent), or raise. -/
inductive FetchOutcome where
  | data (m : MeasData)
  | absent
  | raisesError
  deriving Repr, DecidableEq

/-- One device of a tick's active list together with the oracle of what its
adapter construction and fetch do during this tick. -/
structure TickDevice where
  name : String
  construct : ConstructOutcome
  fetch : FetchOutcome
  deriving Repr, DecidableEq

/-- The observable trace of one tick of the `data_fetcher` device loop. -/
structure TickLog where
  processed : List String
  fetchAttempts : List String
  storeCalls : List MeasData
  deriving Repr, DecidableEq

/-- The body of the per-device `try` block: construct the adapter (a raise
is caught by the per-device `except`), fetch (a raise is likewise caught),
and `if data: store_measurement(data)`.  Returns the fetch attempts and
store calls this one device contributes. -/
def deviceStep (d : TickDevice) : List String × List MeasData :=
  match d.construct with
  | ConstructOutcome.err => ([], [])
  | ConstructOutcome.ok =>
      match d.fetch with
      | FetchOutcome.data m => ([d.name], [m])
      | FetchOutcome.absent => ([d.name], [])
      | FetchOutcome.raisesError => ([d.name], [])

/-- The loop `for device_config in devices: try ... except ...` — the device loop of
one `data_fetcher` tick.  Every device is processed; each per-device failure
is swallowed by the per-device `except` and the loop continues. -/
def runTick : List TickDevice → TickLog
  | [] => ⟨[], [], []⟩
  | d :: rest =>
      let s := deviceStep d
      let r := runTick rest
      ⟨d.name :: r.processed, s.1 ++ r.fetchAttempts, s.2 ++ r.storeCalls⟩

/-- Adapter construction succeeded for this device. -/
def constructedOk (d : TickDevice) : Bool :=
  match d.construct with
  | ConstructOutcome.ok => true
  | ConstructOutcome.err => false

/-- This device's processing reached `store_measurement`: construction
succeeded and the fetch returned a (truthy) measurement dict. -/
def fetchYieldedData (d : TickDevice) : Bool :=
  constructedOk d &&
    match d.fetch with
    | FetchOutcome.data _ => true
    | _ => false

/-! ## Timestamp normalization in store_measurement

`store_measurement` computes the stored timestamp string from the provider
timestamp with
`datetime.fromisoformat(api_timestamp.replace("Z", "+00:00"))`
`.replace(tzinfo=None).strftime("%Y-%m-%d %H:%M:%S")`, falling back to
`datetime.utcnow().strftime("%Y-%m-%d %H:%M:%S")`.  The fragment of
`datetime.fromisoformat` relevant here (date, optional `T`-separated time,
optional `±HH:MM` offset; fractional seconds unmodelled as no caller
produces them) is embedded as an explicit parser. -/

/-- A Python `datetime`: naive wall-clock fields plus an optional fixed
UTC-offset `tzinfo` in minutes. -/
structure PyDateTime where
  year : Nat
  month : Nat
  day : Nat
  hour : Nat
  minute : Nat
  second : Nat
  tzOffsetMinutes : Option Int
  deriving Repr, DecidableEq

/-- One decimal digit. -/
def digitVal (c : Char) : Option Nat :=
  if c.isDigit then some (c.toNat - 48) else none

/-- Two decimal digits. -/
def parse2 : List Char → Option (Nat × List Char)
  | c1 :: c2 :: rest =>
      match digitVal c1, digitVal c2 with
      | some a, some b => some (a * 10 + b, rest)
      | _, _ => none
  | _ => none

/-- Four decimal digits. -/
def parse4 (cs : List Char) : Option (Nat × List Char) := do
  let (hi, r) ← parse2 cs
  let (lo, r) ← parse2 r
  pure (hi * 100 + lo, r)

/-- Expect one literal character. -/
def expectChar (c : Char) : List Char → Option (List Char)
  | x :: rest => if x = c then some rest else none
  | [] => none

/-- A `±HH:MM` UTC-offset suffix, in minutes. -/
def parseOffset : List Char → Option (Int × List Char)
  | '+' :: r => do
      let (h, r) ← parse2 r
      let r ← expectChar ':' r
      let (mi, r) ← parse2 r
      pure ((h * 60 + mi : Nat), r)
  | '-' :: r => do
      let (h, r) ← parse2 r
      let r ← expectChar ':' r
      let (mi, r) ← parse2 r
      pure (-((h * 60 + mi : Nat) : Int), r)
  | _ => none

/-- Field-range validation performed by `datetime` construction (calendar
day-count subtleties are immaterial to every input considered here). -/
def validDateTime (y mo dy h mi s : Nat) : Bool :=
  1 ≤ y && 1 ≤ mo && mo ≤ 12 && 1 ≤ dy && dy ≤ 31 &&
    h ≤ 23 && mi ≤ 59 && s ≤ 59

/-- Embeds `datetime.fromisoformat` (the fragment used by `store_measurement`):
`YYYY-MM-DD`, then optionally a one-character separator and `HH:MM:SS`,
then optionally `±HH:MM`.  `None` models the `ValueError` raise. -/
def fromisoformat (s : String) : Option PyDateTime := do
  let r := s.data
  let (y, r) ← parse4 r
  let r ← expectChar '-' r
  let (mo, r) ← parse2 r
  let r ← expectChar '-' r
  let (dy, r) ← parse2 r
  match r with
  | [] =>
      if validDateTime y mo dy 0 0 0 then
        pure ⟨y, mo, dy, 0, 0, 0, none⟩
      else none
  | _sep :: r => do
      let (h, r) ← parse2 r
      let r ← expectChar ':' r
      let (mi, r) ← parse2 r
      let r ← expectChar ':' r
      let (sec, r) ← parse2 r
      if validDateTime y mo dy h mi sec then
        match r with
        | [] => pure ⟨y, mo, dy, h, mi, sec, none⟩
        | _ => do
            let (off, r) ← parseOffset r
            match r with
            | [] => pure ⟨y, mo, dy, h, mi, sec, some off⟩
            | _ => none
      else none

/-- Embeds `api_timestamp.replace("Z", "+00:00")`: replace every occurrence of the
character `Z` by `+00:00`. -/
def replaceZ (s : String) : String :=
  ⟨s.data.foldr
    (fun c acc =>
      if c = 'Z' then '+' :: '0' :: '0' :: ':' :: '0' :: '0' :: acc
      else c :: acc)
    []⟩

/-- Zero-padded two-digit field. -/
def pad2 (n : Nat) : String :=
  if n < 10 then "0" ++ toString n else toString n

/-- Zero-padded four-digit year. -/
def pad4 (n : Nat) : String :=
  if n < 10 then "000" ++ toString n
  else if n < 100 then "00" ++ toString n
  else if n < 1000 then "0" ++ toString n
  else toString n

/-- Embeds `strftime("%Y-%m-%d %H:%M:%S")`: formats the naive wall-clock fields;
any `tzinfo` does not enter the output. -/
def strftimeSql (dt : PyDateTime) : String :=
  pad4 dt.year ++ "-" ++ pad2 dt.month ++ "-" ++ pad2 dt.day ++ " " ++
    pad2 dt.hour ++ ":" ++ pad2 dt.minute ++ ":" ++ pad2 dt.second

/-- Embeds `utc_dt.replace(tzinfo=None)`: drop the tzinfo, keep the wall-clock
fields unchanged (no conversion). -/
def stripTzinfo (dt : PyDateTime) : PyDateTime :=
  { dt with tzOffsetMinutes := none }

/-- The timestamp string `store_measurement` stores (src/app.py): parse the
provider timestamp when present and truthy, strip its tzinfo, format; else
format the current UTC instant.  `none` models the `ValueError` raise of a
failed parse (uncaught by the surrounding `except sqlite3.Error`). -/
def store_timestamp (api_timestamp : Option String) (nowUtc : PyDateTime) :
    Option String :=
  match api_timestamp with
  | some ts =>
      if ts.length != 0 then
        (fromisoformat (replaceZ ts)).map (fun dt => strftimeSql (stripTzinfo dt))
      else some (strftimeSql nowUtc)
  | none => some (strftimeSql nowUtc)

/-! ## Helper lemmas -/

theorem mLe_ts {a b : Measurement} (h : mLe a b) : a.timestamp ≤ b.timestamp := by
  rcases h with h | ⟨h, _⟩
  · exact le_of_lt h
  · exact le_of_eq h

theorem mem_measurementsByTsAsc {db : DB} {m : Measurement} :
    m ∈ measurementsByTsAsc db ↔ m ∈ db.measurements :=
  (List.perm_insertionSort mLe db.measurements).mem_iff

theorem sorted_measurementsByTsAsc (db : DB) :
    List.Sorted mLe (measurementsByTsAsc db) :=
  List.sorted_insertionSort mLe db.measurements

theorem sqlJoin_map_fst (db : DB) (l : List Measurement) :
    (sqlJoin db l).map Prod.fst =
      l.filter (fun m => hasDevice db m.device_id) := by
  simp [sqlJoin, List.map_map, Function.comp_def]

theorem mem_sqlJoin_fst {db : DB} {l : List Measurement} {m : Measurement} :
    m ∈ (sqlJoin db l).map Prod.fst ↔
      m ∈ l ∧ hasDevice db m.device_id = true := by
  rw [sqlJoin_map_fst, List.mem_filter]

theorem mem_historyQuery_fst (db : DB) (since : Int) (did : Option Nat)
    (m : Measurement) :
    m ∈ (historyQuery db since did).map Prod.fst ↔
      (m ∈ db.measurements ∧ since < m.timestamp ∧ devMatch did m = true ∧
        hasDevice db m.device_id = true) := by
  rw [historyQuery, mem_sqlJoin_fst, List.mem_filter, mem_measurementsByTsAsc]
  simp only [Bool.and_eq_true, decide_eq_true_eq]
  tauto

theorem pairwise_ts_historyQuery (db : DB) (since : Int) (did : Option Nat) :
    List.Pairwise
      (fun p q : Measurement × String => p.1.timestamp ≤ q.1.timestamp)
      (historyQuery db since did) := by
  rw [historyQuery, sqlJoin]
  rw [List.pairwise_map]
  have hsub :
      (((measurementsByTsAsc db).filter
          (fun m => decide (since < m.timestamp) && devMatch did m)).filter
        (fun m => hasDevice db m.device_id)).Sublist (measurementsByTsAsc db) :=
    (List.filter_sublist _).trans (List.filter_sublist _)
  exact ((sorted_measurementsByTsAsc db).sublist hsub).imp mLe_ts

theorem devMatch_none (m : Measurement) : devMatch none m = true := rfl

theorem pyOrZero_some (v : Nat) : pyOrZero (some v) = v := by
  cases v <;> rfl

theorem foldl_max_init_le (l : List Nat) (b : Nat) : b ≤ l.foldl max b := by
  induction l generalizing b with
  | nil => exact le_refl b
  | cons x t ih => exact le_trans (le_max_left b x) (ih (max b x))

theorem foldl_max_le_of_mem {a : Nat} {l : List Nat} (h : a ∈ l) (b : Nat) :
    a ≤ l.foldl max b := by
  induction l generalizing b with
  | nil => cases h
  | cons x t ih =>
      rcases List.mem_cons.mp h with rfl | h2
      · exact le_trans (le_max_right b a) (foldl_max_init_le t (max b a))
      · exact ih h2 (max b x)

theorem foldl_max_eq_init_or_mem (l : List Nat) (b : Nat) :
    l.foldl max b = b ∨ l.foldl max b ∈ l := by
  induction l generalizing b with
  | nil => exact Or.inl rfl
  | cons x t ih =>
      rcases ih (max b x) with h | h
      · rcases Nat.le_total x b with hxb | hbx
        · rw [List.foldl_cons, h, max_eq_left hxb]
          exact Or.inl rfl
        · rw [List.foldl_cons, h, max_eq_right hbx]
          exact Or.inr (List.mem_cons_self x t)
      · exact Or.inr (List.mem_cons_of_mem x h)

theorem sqlMaxId_go (devs : List Device) (a : Nat) :
    devs.foldl
        (fun acc d =>
          match acc with
          | none => some d.id
          | some v => some (max v d.id))
        (some a) =
      some ((devs.map Device.id).foldl max a) := by
  induction devs generalizing a with
  | nil => rfl
  | cons d t ih => simpa using ih (max a d.id)

theorem id_le_pyOrZero_sqlMaxId {d : Device} {devs : List Device}
    (h : d ∈ devs) : d.id ≤ pyOrZero (sqlMaxId devs) := by
  cases devs with
  | nil => cases h
  | cons x t =>
      rw [sqlMaxId, List.foldl_cons]
      show d.id ≤ pyOrZero (t.foldl _ (some x.id))
      rw [sqlMaxId_go, pyOrZero_some]
      rcases List.mem_cons.mp h with rfl | h2
      · exact foldl_max_init_le _ _
      · exact foldl_max_le_of_mem (List.mem_map_of_mem Device.id h2) _

theorem pyOrZero_sqlMaxId_achieved {devs : List Device} (h : devs ≠ []) :
    ∃ d ∈ devs, pyOrZero (sqlMaxId devs) = d.id := by
  cases devs with
  | nil => exact absurd rfl h
  | cons x t =>
      rw [sqlMaxId, List.foldl_cons]
      show ∃ d ∈ x :: t, pyOrZero (t.foldl _ (some x.id)) = d.id
      rw [sqlMaxId_go, pyOrZero_some]
      rcases foldl_max_eq_init_or_mem (t.map Device.id) x.id with h2 | h2
      · exact ⟨x, List.mem_cons_self x t, h2⟩
      · rcases List.mem_map.mp h2 with ⟨d, hd, hid⟩
        exact ⟨d, List.mem_cons_of_mem x hd, hid.symm⟩

theorem runTick_processed (ds : List TickDevice) :
    (runTick ds).processed = ds.map TickDevice.name := by
  induction ds with
  | nil => rfl
  | cons d t ih => simp [runTick, ih]

theorem runTick_fetchAttempts_append (xs ys : List TickDevice) :
    (runTick (xs ++ ys)).fetchAttempts =
      (runTick xs).fetchAttempts ++ (runTick ys).fetchAttempts := by
  induction xs with
  | nil => rfl
  | cons d t ih => simp [runTick, ih]

theorem runTick_storeCalls_append (xs ys : List TickDevice) :
    (runTick (xs ++ ys)).storeCalls =
      (runTick xs).storeCalls ++ (runTick ys).storeCalls := by
  induction xs with
  | nil => rfl
  | cons d t ih => simp [runTick, ih]

theorem name_mem_fetchAttempts {d : TickDevice} {ds : List TickDevice}
    (h : d ∈ ds) (hok : constructedOk d = true) :
    d.name ∈ (runTick ds).fetchAttempts := by
  induction ds with
  | nil => cases h
  | cons x t ih =>
      rcases List.mem_cons.mp h with rfl | h2
      · rcases d with ⟨n, c, f⟩
        cases c with
        | err => simp [constructedOk] at hok
        | ok => cases f <;> simp [runTick, deviceStep]
      · rcases x with ⟨n, c, f⟩
        cases c <;> cases f <;> simp [runTick, deviceStep, ih h2]

theorem data_mem_storeCalls {d : TickDevice} {ds : List TickDevice}
    {m : MeasData} (h : d ∈ ds) (hok : constructedOk d = true)
    (hf : d.fetch = FetchOutcome.data m) :
    m ∈ (runTick ds).storeCalls := by
  induction ds with
  | nil => cases h
  | cons x t ih =>
      rcases List.mem_cons.mp h with rfl | h2
      · rcases d with ⟨n, c, f⟩
        cases c with
        | err => simp [constructedOk] at hok
        | ok =>
            cases f with
            | data m2 =>
                simp only [TickDevice.fetch] at hf
                cases hf
                simp [runTick, deviceStep]
            | absent => simp at hf
            | raisesError => simp at hf
      · rcases x with ⟨n, c, f⟩
        cases c <;> cases f <;> simp [runTick, deviceStep, ih h2]

/-! ## Claim theorems -/

/-- C7: `add_device` assigns the id `(max existing device id, or 0 when the
table is empty) + 1`: the new id exceeds every existing id, equals `1` on an
empty table and `max + 1` (some existing id plus one) otherwise, and two
sequential adds assign distinct ids. -/
theorem add_device_assigns_next_id (db : DB) (n p n2 p2 : String) :
    (∀ d ∈ db.devices, d.id < (add_device db n p).2) ∧
    (db.devices = [] → (add_device db n p).2 = 1) ∧
    (db.devices ≠ [] → ∃ d ∈ db.devices, (add_device db n p).2 = d.id + 1) ∧
    (add_device (add_device db n p).1 n2 p2).2 ≠ (add_device db n p).2 := by
  refine ⟨?_, ?_, ?_, ?_⟩
  · intro d hd
    exact Nat.lt_succ_of_le (id_le_pyOrZero_sqlMaxId hd)
  · intro h
    simp [add_device, sqlMaxId, h, pyOrZero]
  · intro h
    rcases pyOrZero_sqlMaxId_achieved h with ⟨d, hd, hmax⟩
    exact ⟨d, hd, by simp [add_device, hmax]⟩
  · have hmem :
        (⟨(add_device db n p).2, n, p, true⟩ : Device) ∈
          (add_device db n p).1.devices := by
      simp [add_device]
    have hle := id_le_pyOrZero_sqlMaxId hmem
    have : (add_device db n p).2 <
        pyOrZero (sqlMaxId (add_device db n p).1.devices) + 1 :=
      Nat.lt_succ_of_le hle
    exact Nat.ne_of_gt this

/-- A two-device registry for exercising `add_device`. -/
def c7db : DB :=
  ⟨[⟨1, "kitchen", "airgradient", true⟩, ⟨2, "office", "airgradient", false⟩],
   []⟩

/-- C7 witness: on a registry holding ids 1 and 2, the next add assigns an
id exceeding the existing id 1, and the add after that assigns a different
id. -/
theorem add_device_assigns_next_id_witness :
    ((⟨1, "kitchen", "airgradient", true⟩ : Device) ∈ c7db.devices ∧
      (1 : Nat) < (add_device c7db "attic" "airgradient").2) ∧
    (add_device (add_device c7db "attic" "airgradient").1
        "porch" "airgradient").2 ≠
      (add_device c7db "attic" "airgradient").2 :=
  ⟨⟨by decide,
    (add_device_assigns_next_id c7db "attic" "airgradient"
        "porch" "airgradient").1
      (⟨1, "kitchen", "airgradient", true⟩ : Device) (by decide)⟩,
   (add_device_assigns_next_id c7db "attic" "airgradient"
       "porch" "airgradient").2.2.2⟩

/-- C8: `AirGradientAdapter.fetch_data` returns Absent (`None`) on every
transport error, timeout, or non-success HTTP status, and only ever returns
a measurement built from a successful response body (being a total function
of the response outcome, it has no uncaught raising path). -/
theorem fetch_data_absent_on_failure (did : Nat) (r : HttpResult) :
    (isTransportFailure r = true → fetch_data did r = none) ∧
    (∀ m, fetch_data did r = some m →
      ∃ b, r = HttpResult.ok b ∧ m.device_id = did) := by
  cases r with
  | ok b =>
      refine ⟨fun h => by simp [isTransportFailure] at h, ?_⟩
      intro m hm
      refine ⟨b, rfl, ?_⟩
      simp only [fetch_data, Option.some.injEq] at hm
      rw [← hm]
  | connectionError => exact ⟨fun _ => rfl, fun m hm => by simp [fetch_data] at hm⟩
  | timeout => exact ⟨fun _ => rfl, fun m hm => by simp [fetch_data] at hm⟩
  | httpError c => exact ⟨fun _ => rfl, fun m hm => by simp [fetch_data] at hm⟩

/-- C8 witness: at a timeout the adapter yields Absent. -/
theorem fetch_data_absent_on_failure_witness :
    isTransportFailure HttpResult.timeout = true ∧
      fetch_data 7 HttpResult.timeout = none :=
  ⟨by decide, (fetch_data_absent_on_failure 7 HttpResult.timeout).1 (by decide)⟩

/-- A concrete standardized measurement dict, as an adapter would return. -/
def sampleMeasData : MeasData :=
  ⟨1, some "2024-01-01T00:00:00Z", none, some 5, none, some 400, none, none,
    none, none⟩

/-- A two-device tick in which the second device's fetch returns Absent. -/
def c3Tick : List TickDevice :=
  [⟨"kitchen", ConstructOutcome.ok, FetchOutcome.data sampleMeasData⟩,
   ⟨"office", ConstructOutcome.ok, FetchOutcome.absent⟩]

/-- C3 counterexample: in a tick over two active devices where one fetch
fails (returns Absent), `store_measurement` is invoked once, not twice — the
number of store-append attempts does not equal the number of devices. -/
theorem tick_store_calls_ne_devices :
    ¬ ((runTick c3Tick).storeCalls.length = c3Tick.length) := by decide

/-- C3 amended: in every tick, the number of devices processed equals the
number of active devices, the number of fetch attempts equals the number of
devices whose adapter construction succeeded, and the number of
store-append attempts equals the number of devices whose fetch returned a
measurement. -/
theorem tick_attempt_counts (ds : List TickDevice) :
    (runTick ds).processed.length = ds.length ∧
    (runTick ds).fetchAttempts.length = (ds.filter constructedOk).length ∧
    (runTick ds).storeCalls.length = (ds.filter fetchYieldedData).length := by
  induction ds with
  | nil => exact ⟨rfl, rfl, rfl⟩
  | cons d t ih =>
      rcases d with ⟨n, c, f⟩
      rcases ih with ⟨ih1, ih2, ih3⟩
      cases c <;> cases f <;>
        simp [runTick, deviceStep, constructedOk, fetchYieldedData,
          List.filter, ih1, ih2, ih3]

/-- C4: a failure while processing the devices of `xs` (construction error,
Absent fetch, or fetch raise) never prevents any device of `ys` in the same
tick from being processed: every device of the list is iterated, and every
device of `ys` whose construction succeeded is fetched and, when its fetch
returned a measurement, that measurement reaches `store_measurement`. -/
theorem tick_failure_isolation (xs ys : List TickDevice) :
    (runTick (xs ++ ys)).processed =
      xs.map TickDevice.name ++ ys.map TickDevice.name ∧
    ∀ d ∈ ys, constructedOk d = true →
      d.name ∈ (runTick (xs ++ ys)).fetchAttempts ∧
      ∀ m, d.fetch = FetchOutcome.data m →
        m ∈ (runTick (xs ++ ys)).storeCalls := by
  constructor
  · rw [runTick_processed, List.map_append]
  · intro d hd hok
    have hmem : d ∈ xs ++ ys := List.mem_append_right xs hd
    exact ⟨name_mem_fetchAttempts hmem hok,
      fun m hm => data_mem_storeCalls hmem hok hm⟩

/-- A device whose fetch raises during the tick. -/
def c4failDevice : TickDevice :=
  ⟨"kitchen", ConstructOutcome.ok, FetchOutcome.raisesError⟩

/-- A device whose fetch succeeds during the tick. -/
def c4okDevice : TickDevice :=
  ⟨"office", ConstructOutcome.ok, FetchOutcome.data sampleMeasData⟩

/-- C4 witness: with device 1's fetch raising (a timeout), device 2 is still
attempted in the same tick and its successful reading is stored. -/
theorem tick_failure_isolation_witness :
    (c4okDevice ∈ [c4okDevice] ∧ constructedOk c4okDevice = true) ∧
    (c4okDevice.name ∈
      (runTick ([c4failDevice] ++ [c4okDevice])).fetchAttempts ∧
     ∀ m, c4okDevice.fetch = FetchOutcome.data m →
       m ∈ (runTick ([c4failDevice] ++ [c4okDevice])).storeCalls) :=
  ⟨⟨by decide, by decide⟩,
   (tick_failure_isolation [c4failDevice] [c4okDevice]).2
     c4okDevice (by decide) (by decide)⟩

/-- The first element of a list's `head?` is a member. -/
theorem mem_of_head?_eq_some {α : Type} {l : List α} {a : α}
    (h : l.head? = some a) : a ∈ l := by
  cases l with
  | nil => cases h
  | cons x t =>
      simp only [List.head?_cons, Option.some.injEq] at h
      rw [← h]
      exact List.mem_cons_self x t

/-- Every row produced by the join has an existing device row. -/
theorem hasDevice_of_mem_sqlJoin {db : DB} {l : List Measurement}
    {p : Measurement × String} (h : p ∈ sqlJoin db l) :
    hasDevice db p.1.device_id = true := by
  simp only [sqlJoin] at h
  rcases List.mem_map.mp h with ⟨m, hm, heq⟩
  rcases List.mem_filter.mp hm with ⟨_, hdev⟩
  rw [← heq]
  exact hdev

/-- C2: over a store whose measurements all reference existing devices (the
data-model invariant), `latest()` with no `device_id` returns a row, and
that row beats every stored measurement: strictly later timestamp, or equal
timestamp and greater-or-equal id (so on a timestamp tie the highest id
wins).  Tie order follows SQLite's reverse scan of `idx_timestamp`, whose
keys are `(timestamp, rowid)`. -/
theorem latest_no_device_returns_max (db : DB)
    (hint : refIntegrity db = true) (hne : db.measurements ≠ []) :
    (latestQuery db none).isSome = true ∧
    ∀ p : Measurement × String, latestQuery db none = some p →
      p.1 ∈ db.measurements ∧
      ∀ m ∈ db.measurements,
        m.timestamp < p.1.timestamp ∨
          (m.timestamp = p.1.timestamp ∧ m.id ≤ p.1.id) := by
  have hdev : ∀ m ∈ db.measurements, hasDevice db m.device_id = true :=
    List.all_eq_true.mp hint
  have hlne : measurementsByTsAsc db ≠ [] := by
    intro h
    apply hne
    have hperm := List.perm_insertionSort mLe db.measurements
    have h2 : List.insertionSort mLe db.measurements = [] := h
    rw [h2] at hperm
    exact hperm.symm.eq_nil
  have hrne : (measurementsByTsAsc db).reverse ≠ [] := by
    simpa using hlne
  obtain ⟨p, t, hrev⟩ := List.exists_cons_of_ne_nil hrne
  have hpmem : p ∈ db.measurements := by
    have hp : p ∈ (measurementsByTsAsc db).reverse := by
      rw [hrev]
      exact List.mem_cons_self p t
    exact mem_measurementsByTsAsc.mp (List.mem_reverse.mp hp)
  have hfilter :
      ((measurementsByTsAsc db).reverse).filter (devMatch none) =
        (measurementsByTsAsc db).reverse :=
    List.filter_eq_self.mpr (fun a _ => rfl)
  have hjoin : latestQuery db none = some (p, deviceNameOf db p.device_id) := by
    unfold latestQuery
    rw [hfilter, hrev]
    unfold sqlJoin
    have hstep : List.filter (fun m => hasDevice db m.device_id) (p :: t) =
        p :: List.filter (fun m => hasDevice db m.device_id) t := by
      simp [List.filter_cons, hdev p hpmem]
    rw [hstep]
    rfl
  have hmax : ∀ m ∈ db.measurements,
      m.timestamp < p.timestamp ∨
        (m.timestamp = p.timestamp ∧ m.id ≤ p.id) := by
    have hpw : ((measurementsByTsAsc db).reverse).Pairwise
        (fun a b => mLe b a) :=
      List.pairwise_reverse.mpr (sorted_measurementsByTsAsc db)
    rw [hrev] at hpw
    have hrel := (List.pairwise_cons.mp hpw).1
    intro m hm
    have hmrev : m ∈ p :: t := by
      rw [← hrev]
      exact List.mem_reverse.mpr (mem_measurementsByTsAsc.mpr hm)
    rcases List.mem_cons.mp hmrev with rfl | hmt
    · exact Or.inr ⟨rfl, le_refl _⟩
    · exact hrel m hmt
  refine ⟨by rw [hjoin]; rfl, ?_⟩
  intro q hq
  rw [hjoin] at hq
  cases hq
  exact ⟨hpmem, hmax⟩

/-- A measurement with id 1 at instant 100. -/
def c2m1 : Measurement :=
  ⟨1, 1, 100, none, none, none, none, none, none, none, none⟩

/-- A measurement with id 2 at the same instant 100. -/
def c2m2 : Measurement :=
  ⟨2, 1, 100, none, none, none, none, none, none, none, none⟩

/-- A store with two measurements sharing the maximum timestamp. -/
def c2db : DB := ⟨[⟨1, "kitchen", "airgradient", true⟩], [c2m1, c2m2]⟩

/-- C2 witness: on the tied store, `latest()` returns the row with id 2 (the
higher id), and the theorem's maximality conclusion holds for row id 1. -/
theorem latest_no_device_returns_max_witness :
    (refIntegrity c2db = true ∧ c2db.measurements ≠ []) ∧
    latestQuery c2db none = some (c2m2, "kitchen") ∧
    (c2m1.timestamp < c2m2.timestamp ∨
      (c2m1.timestamp = c2m2.timestamp ∧ c2m1.id ≤ c2m2.id)) :=
  ⟨⟨by decide, by decide⟩, by decide,
   ((latest_no_device_returns_max c2db (by decide) (by decide)).2
      (c2m2, "kitchen") (by decide)).2 c2m1 (by decide)⟩

/-- C6: over a store whose measurements all reference existing devices,
`window(hours)` called at instant `now` (a) contains exactly the
measurements with timestamp strictly greater than `now - hours` (restricted
to the given device when one is supplied), (b) is nondecreasing by
timestamp, and (c) is what `get_historical_data` serializes row by row. -/
theorem window_returns_strict_window_sorted (db : DB) (hours : Nat)
    (did : Option Nat) (now : Int)
    (hint : refIntegrity db = true) (hpos : ∀ d, did = some d → 0 < d) :
    (∀ m : Measurement,
        m ∈ (historyQuery db (now - hours * 3600) did).map Prod.fst ↔
          (m ∈ db.measurements ∧ now - hours * 3600 < m.timestamp ∧
            ∀ d, did = some d → m.device_id = d)) ∧
    List.Pairwise
      (fun p q : Measurement × String => p.1.timestamp ≤ q.1.timestamp)
      (historyQuery db (now - hours * 3600) did) ∧
    get_historical_data db hours did now =
      (historyQuery db (now - hours * 3600) did).map histDict := by
  refine ⟨?_, pairwise_ts_historyQuery db _ did, ?_⟩
  · intro m
    rw [mem_historyQuery_fst]
    constructor
    · rintro ⟨hm, hts, hdm, _⟩
      refine ⟨hm, hts, ?_⟩
      rintro d rfl
      simpa [devMatch] using hdm
    · rintro ⟨hm, hts, hdm⟩
      refine ⟨hm, hts, ?_, List.all_eq_true.mp hint m hm⟩
      cases did with
      | none => rfl
      | some d => simp [devMatch, hdm d rfl]
  · cases did with
    | none => rfl
    | some d =>
        have hd := hpos d rfl
        have ht : pyTruthy (some d) = true := by
          simp only [pyTruthy, bne_iff_ne, ne_eq]
          omega
        simp [get_historical_data, ht]

/-- A store with one device and two measurements, one inside and one outside
a 24-hour window ending at instant 3700. -/
def c6db : DB :=
  ⟨[⟨1, "kitchen", "airgradient", true⟩],
   [⟨1, 1, 100, none, none, none, none, none, none, none, none⟩,
    ⟨2, 1, -200000, none, none, none, none, none, none, none, none⟩]⟩

/-- C6 witness: the integrity hypothesis holds on the concrete store and the
24-hour window at instant 3700 is nondecreasing by timestamp. -/
theorem window_returns_strict_window_sorted_witness :
    refIntegrity c6db = true ∧
    List.Pairwise
      (fun p q : Measurement × String => p.1.timestamp ≤ q.1.timestamp)
      (historyQuery c6db (3700 - 24 * 3600) none) :=
  ⟨by decide,
   (window_returns_strict_window_sorted c6db 24 none 3700 (by decide)
      (fun d h => by cases h)).2.1⟩

/-- A measurement whose device row exists but is inactive. -/
def c9meas : Measurement :=
  ⟨1, 1, 100, none, none, none, none, none, none, none, none⟩

/-- A later measurement whose device row has been removed. -/
def c9orphan : Measurement :=
  ⟨2, 99, 200, none, none, none, none, none, none, none, none⟩

/-- A store holding only an inactive device, one measurement of it, and one
orphaned measurement with a higher timestamp. -/
def c9db : DB := ⟨[⟨1, "office", "airgradient", false⟩], [c9meas, c9orphan]⟩

/-- C9: with `device_id` omitted, both queries filter measurements by
existence of the joined device row, never by its `active` flag: window
membership is characterized without mentioning `active`, every row
`latest()` returns has an existing device row, and on the concrete mixed
store `latest()` skips the newer orphaned measurement and returns the
inactive device's measurement. -/
theorem queries_filter_by_row_existence :
    (∀ (db : DB) (since : Int) (m : Measurement),
        m ∈ (historyQuery db since none).map Prod.fst ↔
          (m ∈ db.measurements ∧ since < m.timestamp ∧
            hasDevice db m.device_id = true)) ∧
    (∀ (db : DB) (p : Measurement × String),
        latestQuery db none = some p → hasDevice db p.1.device_id = true) ∧
    latestQuery c9db none = some (c9meas, "office") := by
  refine ⟨?_, ?_, by decide⟩
  · intro db since m
    rw [mem_historyQuery_fst]
    simp [devMatch_none]
  · intro db p hp
    have h2 : (sqlJoin db
        (((measurementsByTsAsc db).reverse).filter (devMatch none))).head? =
          some p := hp
    exact hasDevice_of_mem_sqlJoin (mem_of_head?_eq_some h2)

/-- C9 witness: at the concrete mixed store, `latest()` returns the inactive
device's measurement, whose device row exists. -/
theorem queries_filter_by_row_existence_witness :
    latestQuery c9db none = some (c9meas, "office") ∧
    hasDevice c9db c9meas.device_id = true :=
  ⟨by decide,
   queries_filter_by_row_existence.2.1 c9db (c9meas, "office") (by decide)⟩

/-- Every history response is a row list serialized by `histDict`. -/
theorem get_historical_data_eq_map (db : DB) (hours : Nat) (did : Option Nat)
    (now : Int) :
    ∃ qs : List (Measurement × String),
      get_historical_data db hours did now = qs.map histDict := by
  unfold get_historical_data
  split
  · exact ⟨historyQuery db (now - hours * 3600) did, rfl⟩
  · exact ⟨historyQuery db (now - hours * 3600) none, rfl⟩

/-- Every latest response is a row serialized by `latestDict`. -/
theorem get_latest_eq_latestDict {db : DB} {did : Option Nat} {l : Dict}
    (h : get_latest_measurement db did = some l) : ∃ p, l = latestDict p := by
  unfold get_latest_measurement at h
  split at h <;>
  · rcases Option.map_eq_some'.mp h with ⟨p, _, hp⟩
    exact ⟨p, hp.symm⟩

/-- C10: every row of the windowed-history response carries exactly the keys
`timestamp, pm2, co2, temperature, humidity, tvoc, nox, device_name` — in
particular neither `pm1` nor `pm10` (nor `id` / `device_id`) — while the
latest-measurement response does carry `pm1` and `pm10`. -/
theorem history_row_projection :
    (∀ (db : DB) (hours : Nat) (did : Option Nat) (now : Int) (r : Dict),
        r ∈ get_historical_data db hours did now →
          r.map Prod.fst =
            ["timestamp", "pm2", "co2", "temperature", "humidity", "tvoc",
              "nox", "device_name"] ∧
          "pm1" ∉ r.map Prod.fst ∧ "pm10" ∉ r.map Prod.fst ∧
          "id" ∉ r.map Prod.fst ∧ "device_id" ∉ r.map Prod.fst) ∧
    (∀ (db : DB) (did : Option Nat) (l : Dict),
        get_latest_measurement db did = some l →
          "pm1" ∈ l.map Prod.fst ∧ "pm10" ∈ l.map Prod.fst) := by
  constructor
  · intro db hours did now r hr
    rcases get_historical_data_eq_map db hours did now with ⟨qs, hqs⟩
    rw [hqs] at hr
    rcases List.mem_map.mp hr with ⟨p, _, hp⟩
    rw [← hp]
    exact ⟨rfl, by simp [histDict], by simp [histDict], by simp [histDict],
      by simp [histDict]⟩
  · intro db did l hl
    rcases get_latest_eq_latestDict hl with ⟨p, hp⟩
    rw [hp]
    exact ⟨by simp [latestDict], by simp [latestDict]⟩

/-- A one-device, one-measurement store with all reading fields present. -/
def c10db : DB :=
  ⟨[⟨1, "kitchen", "airgradient", true⟩],
   [⟨1, 1, 100, some 1, some 2, some 3, some 400, some 20, some 50, some 1,
      some 100⟩]⟩

/-- The latest-measurement dict of the `c10db` store. -/
def c10row : Dict :=
  latestDict
    (⟨1, 1, 100, some 1, some 2, some 3, some 400, some 20, some 50, some 1,
       some 100⟩, "kitchen")

/-- C10 witness: the concrete latest response exists and carries the `pm1`
and `pm10` keys. -/
theorem history_row_projection_witness :
    get_latest_measurement c10db none = some c10row ∧
    ("pm1" ∈ c10row.map Prod.fst ∧ "pm10" ∈ c10row.map Prod.fst) :=
  ⟨by decide, history_row_projection.2 c10db none c10row (by decide)⟩

/-- C5: the Query Façade validates before touching the Store: `hours`
outside `[1, 168]` or a supplied `device_id < 1` yields a validation failure
(HTTP 400), a supplied `device_id ≥ 1` that is not an existing active device
yields a not-found failure (HTTP 404), and in every such case the Store
query flag is `false` — `get_historical_data` / `get_latest_measurement`
were never invoked. -/
theorem facade_validates_before_store (db : DB) (hours : Nat)
    (did : Option Nat) (now : Int) :
    ((hours < 1 ∨ 168 < hours) →
        api_history db hours did now = (ApiHistoryResp.badRequest, false)) ∧
    (∀ d, did = some d → d < 1 →
        api_history db hours did now = (ApiHistoryResp.badRequest, false) ∧
        api_current db did = (ApiCurrentResp.badRequest, false)) ∧
    (∀ d, did = some d → 1 ≤ d → activeDeviceExists db d = false →
        api_current db did = (ApiCurrentResp.notFound, false) ∧
        (1 ≤ hours → hours ≤ 168 →
          api_history db hours did now = (ApiHistoryResp.notFound, false))) := by
  refine ⟨?_, ?_, ?_⟩
  · intro h
    unfold api_history
    rcases h with h | h <;> simp [h]
  · rintro d rfl hlt
    have hd0 : d = 0 := by omega
    subst hd0
    constructor
    · unfold api_history
      split
      · rfl
      · rfl
    · rfl
  · rintro d rfl hge hnotact
    have h1 : ¬ d < 1 := by omega
    constructor
    · unfold api_current
      simp [h1, hnotact]
    · intro hlo hhi
      have h2 : ¬ hours < 1 := by omega
      have h3 : ¬ hours > 168 := by omega
      unfold api_history
      simp [h1, h2, h3, hnotact]

/-- C5 witness: at `hours = 0` the façade rejects with a validation failure
and the Store query flag is `false`. -/
theorem facade_validates_before_store_witness :
    ((0 : Nat) < 1 ∨ 168 < 0) ∧
    api_history (⟨[], []⟩ : DB) 0 none 0 = (ApiHistoryResp.badRequest, false) :=
  ⟨Or.inl (by decide),
   (facade_validates_before_store ⟨[], []⟩ 0 none 0).1 (Or.inl (by decide))⟩

/-- A fixed current UTC instant for evaluating `store_measurement`. -/
def c1Now : PyDateTime := ⟨2024, 6, 1, 12, 0, 0, none⟩

/-- C1 (the code evaluated at the failing input): a provider timestamp with
a zero offset (`Z`) is stored as its own wall clock, `2024-01-01 00:00:00`;
but a provider timestamp `2024-01-01T02:00:00+02:00` is stored as
`2024-01-01 02:00:00` — the offset is stripped by `replace(tzinfo=None)`
without converting the instant to UTC, so the stored value is NOT the UTC
wall clock `2024-01-01 00:00:00` the claim requires.  When the timestamp is
absent, the current UTC instant is stored. -/
theorem store_timestamp_strips_offset_without_conversion :
    store_timestamp (some "2024-01-01T00:00:00Z") c1Now =
      some "2024-01-01 00:00:00" ∧
    store_timestamp (some "2024-01-01T02:00:00+02:00") c1Now =
      some "2024-01-01 02:00:00" ∧
    store_timestamp (some "2024-01-01T02:00:00+02:00") c1Now ≠
      some "2024-01-01 00:00:00" ∧
    store_timestamp none c1Now = some (strftimeSql c1Now) :=
  ⟨by decide, by decide, by decide, rfl⟩

end Airq
